import Mathlib

/-!
# Verification of the ndnSIM L3 forwarding core (`src/model/ndn-l3-protocol.cc`)

Shallow embedding of the single-node NDN forwarding engine: the dispatcher
(`Receive`), the face registry (`AddFace` / `RemoveFace`), and the Interest /
Data / NACK pipelines (`OnInterest`, `OnData`, `OnDataDelayed`, `OnNack`,
`GiveUpInterest`).

Modelling conventions:
* a face is identified by its numeric id (`Nat`); the face object itself is an
  external collaborator, so its up/down flag is passed as an argument where the
  code queries `face->IsUp ()`;
* `NS_ASSERT_MSG` failures are modelled as an explicit `assertionFailed`
  result (the assert-enabled build semantics: a failed assertion is fatal);
* sends to faces and calls into the external forwarding-strategy engine
  (`PropagateInterest`) are recorded as a trace of `Action`s; the boolean
  result of each `PropagateInterest` call is supplied as an oracle argument;
* simulation time (`Simulator::Now ()`) is passed as a `Nat` argument.
-/

namespace NdnL3

/-- FIB face status metric: `NDN_FIB_GREEN` / `NDN_FIB_YELLOW` / `NDN_FIB_RED`. -/
inductive FibStatus where
  | green
  | yellow
  | red
deriving DecidableEq, Repr

/-- NACK tag carried by an Interest header: `NORMAL_INTEREST`, `NACK_LOOP`,
`NACK_GIVEUP_PIT`. -/
inductive NackType where
  | normal
  | loop
  | giveupPit
deriving DecidableEq, Repr

/-- Interest header: name, nonce, lifetime hint and NACK tag. -/
structure InterestPkt where
  name : Nat
  nonce : Nat
  lifetime : Nat
  nack : NackType
deriving DecidableEq, Repr

/-- Data (content object) packet: name and payload. -/
structure DataPkt where
  name : Nat
  payload : Nat
deriving DecidableEq, Repr

/-- A packet handed to a face's `Send`. -/
inductive Pkt where
  | interest (hdr : InterestPkt)
  | dataPkt (d : DataPkt)
deriving DecidableEq, Repr

/-- Observable action of the forwarding core: a send on a face, or a call into
the external forwarding-strategy's `PropagateInterest` (recording the incoming
face passed to it and the NACK tag of the header at call time). -/
inductive Action where
  | send (face : Nat) (p : Pkt)
  | propagateCall (incomingFace : Nat) (tag : NackType)
deriving DecidableEq, Repr

/-- One face metric of a FIB entry (`NdnFibFaceMetric`): face, status, RTT. -/
structure FibFaceMetric where
  m_face : Nat
  m_status : FibStatus
  m_rtt : Nat
deriving DecidableEq, Repr

/-- A FIB entry: name prefix key and its ordered face-metric set (`m_faces`). -/
structure FibEntry where
  fibKey : Nat
  m_faces : List FibFaceMetric
deriving DecidableEq, Repr

/-- An outgoing record of a PIT entry (`NdnPitEntryOutgoingFace`): the face the
Interest was forwarded to, the send time, and the waiting-in-vain flag. -/
structure PitOutgoing where
  m_face : Nat
  m_sendTime : Nat
  m_waitingInVain : Bool
deriving DecidableEq, Repr

/-- A PIT entry (`NdnPitEntry`): name key, incoming faces, outgoing records,
seen nonces, lifetime, retransmission allowance, erased flag, and the
back-reference (by key) to its FIB entry. -/
structure PitEntry where
  name : Nat
  incoming : List Nat
  outgoing : List PitOutgoing
  seenNonces : List Nat
  lifetime : Nat
  allowedRetx : Nat
  erased : Bool
  fibKey : Nat
deriving DecidableEq, Repr

/-- Node state owned by `NdnL3Protocol` and its aggregated tables: face list,
face-id counter, PIT, FIB, content store (name ↦ payload), PIT capacity and the
two configuration knobs. -/
structure Node where
  m_faces : List Nat
  m_faceCounter : Nat
  pit : List PitEntry
  fib : List FibEntry
  cs : List (Nat × Nat)
  pitCapacity : Nat
  m_nacksEnabled : Bool
  m_cacheUnsolicitedData : Bool
deriving DecidableEq, Repr

/-- Modelled from the spec: `NdnPit::Lookup` (class not under `src/`) — the PIT
is keyed by name; erased entries are retained and still found. -/
def pitLookup : List PitEntry → Nat → Option PitEntry
  | [], _ => none
  | e :: rest, n => if e.name = n then some e else pitLookup rest n

/-- Update the (first) PIT entry with the given name in place, mirroring the
C++ in-place mutation of the shared entry returned by `Lookup`. -/
def updatePit : List PitEntry → Nat → (PitEntry → PitEntry) → List PitEntry
  | [], _, _ => []
  | e :: rest, n, f => if e.name = n then f e :: rest else e :: updatePit rest n f

/-- FIB lookup by the key a PIT entry back-references
(`pitEntry->GetFibEntry ()`). -/
def fibLookup : List FibEntry → Nat → Option FibEntry
  | [], _ => none
  | fe :: rest, k => if fe.fibKey = k then some fe else fibLookup rest k

/-- Update the (first) FIB entry with the given key in place. -/
def updateFib : List FibEntry → Nat → (FibEntry → FibEntry) → List FibEntry
  | [], _, _ => []
  | fe :: rest, k, f => if fe.fibKey = k then f fe :: rest else fe :: updateFib rest k f

/-- Modelled from the spec: `NdnFibEntry::UpdateStatus` (class not under
`src/`) — set the status of the metric of the given face. -/
def entryUpdateStatus (fe : FibEntry) (face : Nat) (s : FibStatus) : FibEntry :=
  { fe with m_faces := fe.m_faces.map fun m =>
      if m.m_face = face then { m with m_status := s } else m }

/-- Modelled from the spec: `NdnFibEntry::UpdateFaceRtt` (class not under
`src/`) — record the new RTT sample for the face's metric (the smoothing
function itself is external; the sample is stored). -/
def entryUpdateFaceRtt (fe : FibEntry) (face : Nat) (rtt : Nat) : FibEntry :=
  { fe with m_faces := fe.m_faces.map fun m =>
      if m.m_face = face then { m with m_rtt := rtt } else m }

/-- `pitEntry->GetFibEntry ()->UpdateStatus (face, s)` lifted to the node FIB. -/
def fibUpdateStatus (fib : List FibEntry) (k face : Nat) (s : FibStatus) : List FibEntry :=
  updateFib fib k (fun fe => entryUpdateStatus fe face s)

/-- `pitEntry->GetFibEntry ()->UpdateFaceRtt (face, rtt)` lifted to the node FIB. -/
def fibUpdateFaceRtt (fib : List FibEntry) (k face : Nat) (rtt : Nat) : List FibEntry :=
  updateFib fib k (fun fe => entryUpdateFaceRtt fe face rtt)

/-- Status of a face's metric inside the FIB entry with key `k`. -/
def fibStatusOf (fib : List FibEntry) (k face : Nat) : Option FibStatus :=
  match fibLookup fib k with
  | none => none
  | some fe =>
    match fe.m_faces.find? (fun m => m.m_face == face) with
    | none => none
    | some m => some m.m_status

/-- Find the outgoing record of a PIT entry for a face
(`pitEntry->GetOutgoing ().find (face)`). -/
def findOutgoing : List PitOutgoing → Nat → Option PitOutgoing
  | [], _ => none
  | og :: rest, f => if og.m_face = f then some og else findOutgoing rest f

/-- Modelled from the spec: `NdnPitEntry::RemoveAllReferencesToFace` (class not
under `src/`) — removes the face from the entry's incoming and outgoing sets. -/
def removeAllReferencesToFace (e : PitEntry) (face : Nat) : PitEntry :=
  { e with incoming := e.incoming.filter (fun f => f ≠ face),
           outgoing := e.outgoing.filter (fun og => og.m_face ≠ face) }

/-- Modelled from the spec: `NdnPit::MarkErased` (class not under `src/`) —
transition the entry to the "erased" state (retained, not deleted). -/
def markErased (e : PitEntry) : PitEntry :=
  { e with erased := true }

/-- Modelled from the spec: `NdnPitEntry::RemoveIncoming` (class not under
`src/`) — remove the face's incoming record. -/
def removeIncoming (e : PitEntry) (face : Nat) : PitEntry :=
  { e with incoming := e.incoming.filter (fun f => f ≠ face) }

/-- Modelled from the spec: `NdnPitEntry::SetWaitingInVain` (class not under
`src/`) — mark the outgoing record of the face as waiting-in-vain. -/
def setWaitingInVain (e : PitEntry) (face : Nat) : PitEntry :=
  { e with outgoing := e.outgoing.map fun og =>
      if og.m_face = face then { og with m_waitingInVain := true } else og }

/-- Modelled from the spec: `NdnPitEntry::AreAllOutgoingInVain` (class not
under `src/`). -/
def areAllOutgoingInVain (e : PitEntry) : Bool :=
  e.outgoing.all (fun og => og.m_waitingInVain)

/-- Modelled from the spec: content-store `Lookup` contract — lookup by name. -/
def csLookup : List (Nat × Nat) → Nat → Option Nat
  | [], _ => none
  | (n, p) :: rest, k => if n = k then some p else csLookup rest k

/-- Modelled from the spec: content-store `Add` contract — insert or update. -/
def csAdd : List (Nat × Nat) → Nat → Nat → List (Nat × Nat)
  | [], n, p => [(n, p)]
  | (n', p') :: rest, n, p =>
    if n' = n then (n, p) :: rest else (n', p') :: csAdd rest n p

/-- Result of `NdnL3Protocol::RemoveFace`. -/
inductive FaceRemovalResult where
  | ok
  | assertionFailed (msg : String)
deriving DecidableEq, Repr

/-- `NdnL3Protocol::AddFace` (lines 141–154): assign the next id, register the
receive callback (external), append to the face list, bump the counter. -/
def AddFace (node : Node) : Node × Nat :=
  ({ node with m_faces := node.m_faces ++ [node.m_faceCounter],
               m_faceCounter := node.m_faceCounter + 1 },
   node.m_faceCounter)

/-- The condition at lines 171–172: the PIT entry's FIB entry has exactly one
face metric and it is the face being removed. -/
def fibOnlyFace (fib : List FibEntry) (e : PitEntry) (face : Nat) : Bool :=
  match fibLookup fib e.fibKey with
  | none => false
  | some fe =>
    match fe.m_faces with
    | [m] => m.m_face == face
    | _ => false

/-- `NdnL3Protocol::RemoveFace` (lines 156–185): revoke the callback
(external), remove all references to the face from every PIT entry, mark
erased every PIT entry whose FIB entry holds only this face, then erase the
face from the face list — asserting that it was present. -/
def RemoveFace (node : Node) (face : Nat) : Node × FaceRemovalResult :=
  let pit₁ := node.pit.map (fun e => removeAllReferencesToFace e face)
  let pit₂ := pit₁.map (fun e => if fibOnlyFace node.fib e face then markErased e else e)
  if face ∈ node.m_faces then
    ({ node with pit := pit₂, m_faces := node.m_faces.erase face }, FaceRemovalResult.ok)
  else
    ({ node with pit := pit₂ },
     FaceRemovalResult.assertionFailed "Attempt to remove face that doesn't exist")

/-- Declared header type of a raw packet, as classified by
`NdnHeaderHelper::GetNdnHeaderType` (throws for an unrecognized type). -/
inductive HeaderType where
  | interest
  | contentObject
  | unknownHeader
deriving DecidableEq, Repr

/-- A raw inbound packet: its declared type, the parse result of the
type-specific header (`none` models a deserialization throw), and the payload
size remaining after removing an Interest header. -/
structure RawPacket where
  declaredType : HeaderType
  interestHdr : Option InterestPkt
  dataHdr : Option DataPkt
  interestPayloadSize : Nat
deriving DecidableEq, Repr

/-- Result of `NdnL3Protocol::Receive`: packet ignored (face down), a fatal
`NS_ASSERT_MSG` failure, or a successful dispatch into the forwarding
strategy's Interest/Data pipeline. -/
inductive RxResult where
  | ignoredFaceDown
  | assertionFailed (msg : String)
  | dispatchInterest (hdr : InterestPkt)
  | dispatchData (hdr : DataPkt) (payload : Nat)
deriving DecidableEq, Repr

/-- The message of the assertion in the `catch` block at line 269. -/
def unknownHeaderMsg : String := "Unknown Ndn header. Should not happen"

/-- `NdnL3Protocol::Receive` (lines 219–273): drop if the face is down;
classify by declared header type; deserialize the type-specific header and
dispatch. An unrecognized type throws `NdnUnknownHeaderException`, caught at
line 267 — whose handler trips `NS_ASSERT_MSG (false, ...)`. Modelled from the
spec for the header classes (not under `src/`): a type-specific
deserialization failure throws the same caught exception ("Deserialization
failure of either is a non-fatal drop with diagnostic"), so it lands in the
same catch block. An Interest with leftover payload trips the assertion at
line 241. -/
def Receive (faceUp : Bool) (p : RawPacket) : RxResult :=
  if !faceUp then RxResult.ignoredFaceDown
  else
    match p.declaredType with
    | HeaderType.interest =>
      match p.interestHdr with
      | none => RxResult.assertionFailed unknownHeaderMsg
      | some hdr =>
        if p.interestPayloadSize ≠ 0 then
          RxResult.assertionFailed "Payload of Interests should be zero"
        else
          RxResult.dispatchInterest hdr
    | HeaderType.contentObject =>
      match p.dataHdr with
      | none => RxResult.assertionFailed unknownHeaderMsg
      | some d => RxResult.dispatchData d d.payload
    | HeaderType.unknownHeader => RxResult.assertionFailed unknownHeaderMsg

/-- Does the dispatch result denote a fatal (crashing) assertion failure? -/
def rxCrashes : RxResult → Bool
  | RxResult.assertionFailed _ => true
  | _ => false

/-- Outcome signals of the pipelines, mirroring the drop/trace reasons of the
source (`m_dropInterests`, `m_dropData`, `m_dropNacks`) plus success labels. -/
inductive Outcome where
  | pitLimit
  | duplicated
  | suppressed
  | noFaces
  | cacheHit
  | forwarded
  | unsolicitedDrop
  | cachedUnsolicited
  | outgoingMissing
  | satisfiedErased
  | dataFanOut
  | nackNonDuplicate
  | nackOutMissing
  | afterSatisfied
  | nackSuppressed
  | nackForwarded
  | nackNoFaces
deriving DecidableEq, Repr

/-- `NdnL3Protocol::GiveUpInterest` (lines 645–674): if NACKs are enabled,
re-tag the Interest `NACK_GIVEUP_PIT`, send a copy to every incoming face,
clear both the incoming and outgoing sets and mark the entry erased; if NACKs
are disabled, do nothing at all. -/
def GiveUpInterest (node : Node) (entryName : Nat) (hdr : InterestPkt) :
    Node × List Action :=
  if node.m_nacksEnabled then
    match pitLookup node.pit entryName with
    | none => (node, [])
    | some entry =>
      let nackHdr := { hdr with nack := NackType.giveupPit }
      let sends := entry.incoming.map (fun f => Action.send f (Pkt.interest nackHdr))
      ({ node with pit := (updatePit node.pit entryName
           (fun e => markErased { e with incoming := [], outgoing := [] })) },
       sends)
  else (node, [])

/-- `NdnL3Protocol::OnDataDelayed` (lines 517–553): look up the PIT entry by
the Data name; send a copy of the Data to every incoming face; if there was at
least one incoming face, clear the incoming and outgoing sets and mark the
entry erased. -/
def OnDataDelayed (node : Node) (d : DataPkt) : Node × List Action :=
  match pitLookup node.pit d.name with
  | none => (node, [])
  | some entry =>
    let sends := entry.incoming.map (fun f => Action.send f (Pkt.dataPkt d))
    if entry.incoming.length > 0 then
      ({ node with pit := (updatePit node.pit d.name
           (fun e => markErased { e with incoming := [], outgoing := [] })) },
       sends)
    else (node, sends)

/-- `NdnL3Protocol::OnData` (lines 555–643): look up the PIT entry; with no
entry, cache if unsolicited caching is on, otherwise drop as `UNSOLICITED`.
With an entry: if there is no outgoing record for the arriving face, cache if
allowed, otherwise log the inconsistency and drop; if there is one, update the
face's FIB RTT from now minus send time, promote its FIB status to green, add
the Data to the content store, remove the arriving face from the incoming set,
and either mark the entry erased (incoming now empty) or run the
`OnDataDelayed` satisfaction fan-out. -/
def OnData (node : Node) (incomingFace : Nat) (d : DataPkt) (now : Nat) :
    Node × List Action × Outcome :=
  match pitLookup node.pit d.name with
  | none =>
    if node.m_cacheUnsolicitedData then
      ({ node with cs := csAdd node.cs d.name d.payload }, [], Outcome.cachedUnsolicited)
    else
      (node, [], Outcome.unsolicitedDrop)
  | some entry =>
    match findOutgoing entry.outgoing incomingFace with
    | none =>
      if node.m_cacheUnsolicitedData then
        ({ node with cs := csAdd node.cs d.name d.payload }, [], Outcome.cachedUnsolicited)
      else
        (node, [], Outcome.outgoingMissing)
    | some og =>
      let node₁ := { node with
        fib := fibUpdateStatus
                 (fibUpdateFaceRtt node.fib entry.fibKey incomingFace (now - og.m_sendTime))
                 entry.fibKey incomingFace FibStatus.green,
        cs := csAdd node.cs d.name d.payload,
        pit := updatePit node.pit d.name (fun e => removeIncoming e incomingFace) }
      if (removeIncoming entry incomingFace).incoming.isEmpty then
        ({ node₁ with pit := updatePit node₁.pit d.name markErased }, [],
         Outcome.satisfiedErased)
      else
        let (node₂, acts) := OnDataDelayed node₁ d
        (node₂, acts, Outcome.dataFanOut)

/-- Modelled from the spec: `NdnPit::Create` (class not under `src/`) — create
a fresh PIT entry for the Interest name unless the table is at capacity; the
new entry back-references the FIB entry for the name. -/
def pitCreate (node : Node) (hdr : InterestPkt) : Option PitEntry :=
  if node.pit.length < node.pitCapacity then
    some { name := hdr.name, incoming := [], outgoing := [], seenNonces := [],
           lifetime := hdr.lifetime, allowedRetx := 0, erased := false,
           fibKey := hdr.name }
  else none

/-- The propagation tail of `OnInterest` (lines 489–514): call
`PropagateInterest`; if it fails and the Interest was a retransmission,
increase the allowed-retransmission count and retry once; if still not
propagated, report `NO_FACES` and invoke `GiveUpInterest`. -/
def interestPropagate (node : Node) (incomingFace : Nat) (hdr : InterestPkt)
    (isRetransmitted prop1 prop2 : Bool) : Node × List Action × Outcome :=
  let acts₁ := [Action.propagateCall incomingFace hdr.nack]
  if prop1 then (node, acts₁, Outcome.forwarded)
  else if isRetransmitted then
    let node₁ := { node with pit := (updatePit node.pit hdr.name
                     (fun e => { e with allowedRetx := e.allowedRetx + 1 })) }
    let acts₂ := acts₁ ++ [Action.propagateCall incomingFace hdr.nack]
    if prop2 then (node₁, acts₂, Outcome.forwarded)
    else
      let (node₂, gActs) := GiveUpInterest node₁ hdr.name hdr
      (node₂, acts₂ ++ gActs, Outcome.noFaces)
  else
    let (node₁, gActs) := GiveUpInterest node hdr.name hdr
    (node₁, acts₁ ++ gActs, Outcome.noFaces)

/-- `NdnL3Protocol::OnInterest` (lines 359–515): look up or create the PIT
entry (`PIT_LIMIT` drop on creation failure); compute new / duplicate /
retransmission state; register the arriving face as incoming (also for
duplicates); on a duplicate, report `DUPLICATED` and, if NACKs are enabled,
reflect a `NACK_LOOP` back to the arriving face; on a content-store hit,
satisfy via `OnDataDelayed`; otherwise refresh the lifetime, apply the
suppression policy (demote to yellow rather than suppress when the arriving
face already has an outgoing record), and attempt propagation. The booleans
`prop1`, `prop2` are the results of the external `PropagateInterest` calls. -/
def OnInterest (node : Node) (incomingFace : Nat) (hdr : InterestPkt)
    (prop1 prop2 : Bool) : Node × List Action × Outcome :=
  let lookedUp :=
    match pitLookup node.pit hdr.name with
    | some e => (node, some e)
    | none =>
      match pitCreate node hdr with
      | some e => ({ node with pit := node.pit ++ [e] }, some e)
      | none => (node, none)
  match lookedUp with
  | (node₀, none) => (node₀, [], Outcome.pitLimit)
  | (node₀, some entry) =>
    let isNew := entry.incoming.isEmpty && entry.outgoing.isEmpty
    let isDuplicated := decide (hdr.nonce ∈ entry.seenNonces)
    let entry₁ :=
      if hdr.nonce ∈ entry.seenNonces then entry
      else { entry with seenNonces := entry.seenNonces ++ [hdr.nonce] }
    let isRetransmitted := decide (incomingFace ∈ entry.incoming)
    let outFaceExists := (findOutgoing entry.outgoing incomingFace).isSome
    let entry₂ :=
      if incomingFace ∈ entry.incoming then entry₁
      else { entry₁ with incoming := entry₁.incoming ++ [incomingFace] }
    let node₁ := { node₀ with pit := updatePit node₀.pit hdr.name (fun _ => entry₂) }
    if isDuplicated then
      if node₁.m_nacksEnabled then
        (node₁,
         [Action.send incomingFace (Pkt.interest { hdr with nack := NackType.loop })],
         Outcome.duplicated)
      else (node₁, [], Outcome.duplicated)
    else
      match csLookup node₁.cs hdr.name with
      | some payload =>
        let (node₂, acts) := OnDataDelayed node₁ { name := hdr.name, payload := payload }
        (node₂, acts, Outcome.cacheHit)
      | none =>
        let node₂ := { node₁ with pit := (updatePit node₁.pit hdr.name
                         (fun e => { e with lifetime := hdr.lifetime })) }
        if outFaceExists then
          let node₃ := { node₂ with
            fib := fibUpdateStatus node₂.fib entry.fibKey incomingFace FibStatus.yellow }
          interestPropagate node₃ incomingFace hdr isRetransmitted prop1 prop2
        else if !isNew && !isRetransmitted then
          (node₂, [], Outcome.suppressed)
        else
          interestPropagate node₂ incomingFace hdr isRetransmitted prop1 prop2

/-- The mutation `OnNack` applies to the PIT entry before its branch decision
(lines 311–319): mark the arriving face's outgoing record waiting-in-vain and,
for a `NACK_GIVEUP_PIT`, remove the arriving face's incoming record. -/
def nackUpdatedEntry (entry : PitEntry) (incomingFace : Nat) (tag : NackType) : PitEntry :=
  if tag = NackType.giveupPit then
    removeIncoming (setWaitingInVain entry incomingFace) incomingFace
  else setWaitingInVain entry incomingFace

/-- `NdnL3Protocol::OnNack` (lines 275–357): look up the PIT entry
(`NON_DUPLICATED` drop when absent) and the outgoing record of the arriving
face (plain drop when absent); mark that record waiting-in-vain; on a
`NACK_GIVEUP_PIT`, also remove the arriving face's incoming record; demote the
face's FIB status to yellow; stop with `AFTER_SATISFIED` if the incoming set
is now empty, with `SUPPRESSED` if not every outgoing record is in vain;
otherwise clear the NACK tag to `NORMAL_INTEREST` and attempt one more
propagation, giving up on failure. `prop` is the external
`PropagateInterest` result. -/
def OnNack (node : Node) (incomingFace : Nat) (hdr : InterestPkt) (prop : Bool) :
    Node × List Action × Outcome :=
  match pitLookup node.pit hdr.name with
  | none => (node, [], Outcome.nackNonDuplicate)
  | some entry =>
    match findOutgoing entry.outgoing incomingFace with
    | none => (node, [], Outcome.nackOutMissing)
    | some _ =>
      let entry₂ := nackUpdatedEntry entry incomingFace hdr.nack
      let node₁ := { node with
        pit := updatePit node.pit hdr.name (fun _ => entry₂),
        fib := fibUpdateStatus node.fib entry.fibKey incomingFace FibStatus.yellow }
      if entry₂.incoming.isEmpty then (node₁, [], Outcome.afterSatisfied)
      else if !areAllOutgoingInVain entry₂ then (node₁, [], Outcome.nackSuppressed)
      else
        let acts := [Action.propagateCall incomingFace NackType.normal]
        if prop then (node₁, acts, Outcome.nackForwarded)
        else
          let g := GiveUpInterest node₁ hdr.name { hdr with nack := NackType.normal }
          (g.1, acts ++ g.2, Outcome.nackNoFaces)

/-! ## Concrete fixtures used by witnesses and counterexamples -/

/-- A node with a PIT entry for name 3 whose outgoing records are faces 4
(not yet in vain) and 6 (already in vain), witness fixture for C6. -/
def nodeC6 : Node :=
  { m_faces := [2, 4, 5, 6], m_faceCounter := 7,
    pit := [{ name := 3, incoming := [2, 5],
              outgoing := [{ m_face := 4, m_sendTime := 1, m_waitingInVain := false },
                           { m_face := 6, m_sendTime := 1, m_waitingInVain := true }],
              seenNonces := [9], lifetime := 5, allowedRetx := 0, erased := false, fibKey := 3 }],
    fib := [{ fibKey := 3, m_faces := [{ m_face := 4, m_status := FibStatus.green, m_rtt := 7 }] }],
    cs := [], pitCapacity := 4, m_nacksEnabled := true, m_cacheUnsolicitedData := false }

/-- The PIT entry of `nodeC6`. -/
def entryC6 : PitEntry :=
  { name := 3, incoming := [2, 5],
    outgoing := [{ m_face := 4, m_sendTime := 1, m_waitingInVain := false },
                 { m_face := 6, m_sendTime := 1, m_waitingInVain := true }],
    seenNonces := [9], lifetime := 5, allowedRetx := 0, erased := false, fibKey := 3 }

/-- A loop-tagged NACK header for name 3, witness fixture for C6. -/
def hdrC6 : InterestPkt := { name := 3, nonce := 9, lifetime := 5, nack := NackType.loop }

/-- The outgoing record of face 4 in `entryC6`. -/
def ogC6 : PitOutgoing := { m_face := 4, m_sendTime := 1, m_waitingInVain := false }

/-- A one-entry node used as witness fixture for C3: the single PIT entry's
FIB entry holds only face 1. -/
def nodeC3 : Node :=
  { m_faces := [0, 1], m_faceCounter := 2,
    pit := [{ name := 0, incoming := [0, 1], outgoing := [{ m_face := 1, m_sendTime := 0, m_waitingInVain := false }],
              seenNonces := [3], lifetime := 5, allowedRetx := 0, erased := false, fibKey := 0 }],
    fib := [{ fibKey := 0, m_faces := [{ m_face := 1, m_status := FibStatus.green, m_rtt := 7 }] }],
    cs := [], pitCapacity := 4, m_nacksEnabled := true, m_cacheUnsolicitedData := false }

/-- The PIT entry of `nodeC3`. -/
def entryC3 : PitEntry :=
  { name := 0, incoming := [0, 1], outgoing := [{ m_face := 1, m_sendTime := 0, m_waitingInVain := false }],
    seenNonces := [3], lifetime := 5, allowedRetx := 0, erased := false, fibKey := 0 }

/-- A node with a two-incoming-face PIT entry, witness fixture for C8. -/
def nodeC8 : Node :=
  { m_faces := [0, 1, 2], m_faceCounter := 3,
    pit := [{ name := 4, incoming := [0, 2], outgoing := [{ m_face := 1, m_sendTime := 2, m_waitingInVain := true }],
              seenNonces := [9], lifetime := 5, allowedRetx := 0, erased := false, fibKey := 4 }],
    fib := [{ fibKey := 4, m_faces := [{ m_face := 1, m_status := FibStatus.yellow, m_rtt := 7 }] }],
    cs := [], pitCapacity := 4, m_nacksEnabled := true, m_cacheUnsolicitedData := false }

/-- The PIT entry of `nodeC8`. -/
def entryC8 : PitEntry :=
  { name := 4, incoming := [0, 2], outgoing := [{ m_face := 1, m_sendTime := 2, m_waitingInVain := true }],
    seenNonces := [9], lifetime := 5, allowedRetx := 0, erased := false, fibKey := 4 }

/-- An Interest header for name 4, witness fixture for C8. -/
def hdrC8 : InterestPkt := { name := 4, nonce := 9, lifetime := 5, nack := NackType.normal }

/-- An empty-tables node with faces `[0, 1]`, used as a witness fixture. -/
def nodeTwoFaces : Node :=
  { m_faces := [0, 1], m_faceCounter := 2, pit := [], fib := [], cs := [],
    pitCapacity := 4, m_nacksEnabled := true, m_cacheUnsolicitedData := false }

/-- A concrete Interest header used by witness fixtures. -/
def hdrFive : InterestPkt :=
  { name := 5, nonce := 9, lifetime := 2, nack := NackType.normal }

/-- A concrete Interest packet carrying 3 leftover payload bytes. -/
def pktPayload3 : RawPacket :=
  { declaredType := HeaderType.interest, interestHdr := some hdrFive,
    dataHdr := none, interestPayloadSize := 3 }

/-- A node holding a PIT entry for name 4 with nonce 9 already seen, witness
fixture for C4: face 2 re-sends (name 4, nonce 9). -/
def nodeC4 : Node :=
  { m_faces := [0, 1, 2], m_faceCounter := 3,
    pit := [{ name := 4, incoming := [0], outgoing := [{ m_face := 1, m_sendTime := 2, m_waitingInVain := false }],
              seenNonces := [9], lifetime := 5, allowedRetx := 0, erased := false, fibKey := 4 }],
    fib := [{ fibKey := 4, m_faces := [{ m_face := 1, m_status := FibStatus.green, m_rtt := 7 }] }],
    cs := [], pitCapacity := 4, m_nacksEnabled := true, m_cacheUnsolicitedData := false }

/-- The PIT entry of `nodeC4`. -/
def entryC4 : PitEntry :=
  { name := 4, incoming := [0], outgoing := [{ m_face := 1, m_sendTime := 2, m_waitingInVain := false }],
    seenNonces := [9], lifetime := 5, allowedRetx := 0, erased := false, fibKey := 4 }

/-- A node whose content store already holds name 4, witness fixture for C7. -/
def nodeC7 : Node :=
  { m_faces := [0, 1, 2], m_faceCounter := 3,
    pit := [{ name := 4, incoming := [0], outgoing := [{ m_face := 1, m_sendTime := 2, m_waitingInVain := false }],
              seenNonces := [9], lifetime := 5, allowedRetx := 0, erased := false, fibKey := 4 }],
    fib := [{ fibKey := 4, m_faces := [{ m_face := 1, m_status := FibStatus.green, m_rtt := 7 }] }],
    cs := [(4, 42)], pitCapacity := 4, m_nacksEnabled := true, m_cacheUnsolicitedData := false }

/-- A fresh-nonce Interest header for name 4, witness fixture for C7. -/
def hdrC7 : InterestPkt := { name := 4, nonce := 11, lifetime := 5, nack := NackType.normal }

/-- A node with an *empty* PIT whose content store already holds name 4,
witness fixture for the created-entry case of C7. -/
def nodeC7c : Node :=
  { m_faces := [0, 1, 2], m_faceCounter := 3, pit := [],
    fib := [{ fibKey := 4, m_faces := [{ m_face := 1, m_status := FibStatus.green, m_rtt := 7 }] }],
    cs := [(4, 42)], pitCapacity := 4, m_nacksEnabled := true, m_cacheUnsolicitedData := false }

/-- A node whose content store holds name 0 while the PIT entry has an
outgoing record for face 4, counterexample fixture for C5. -/
def nodeC5 : Node :=
  { m_faces := [2, 4], m_faceCounter := 5,
    pit := [{ name := 0, incoming := [2], outgoing := [{ m_face := 4, m_sendTime := 1, m_waitingInVain := false }],
              seenNonces := [9], lifetime := 5, allowedRetx := 0, erased := false, fibKey := 0 }],
    fib := [{ fibKey := 0, m_faces := [{ m_face := 4, m_status := FibStatus.green, m_rtt := 7 }] }],
    cs := [(0, 99)], pitCapacity := 4, m_nacksEnabled := true, m_cacheUnsolicitedData := false }

/-- The PIT entry of `nodeC5`. -/
def entryC5 : PitEntry :=
  { name := 0, incoming := [2], outgoing := [{ m_face := 4, m_sendTime := 1, m_waitingInVain := false }],
    seenNonces := [9], lifetime := 5, allowedRetx := 0, erased := false, fibKey := 0 }

/-- A fresh-nonce Interest header for name 0, fixture for C5. -/
def hdrC5 : InterestPkt := { name := 0, nonce := 5, lifetime := 3, nack := NackType.normal }

/-- A node for the C5 (amended) witness: entry for name 0 with incoming {2}
and outgoing {4}; empty content store. -/
def nodeC5w : Node :=
  { m_faces := [2, 4], m_faceCounter := 5,
    pit := [{ name := 0, incoming := [2], outgoing := [{ m_face := 4, m_sendTime := 1, m_waitingInVain := false }],
              seenNonces := [9], lifetime := 5, allowedRetx := 0, erased := false, fibKey := 0 }],
    fib := [{ fibKey := 0, m_faces := [{ m_face := 4, m_status := FibStatus.green, m_rtt := 7 }] }],
    cs := [], pitCapacity := 4, m_nacksEnabled := true, m_cacheUnsolicitedData := false }

/-- A node whose PIT entry for name 0 has incoming faces {1, 2, 3} and an
outgoing record for face 1, counterexample fixture for C1. -/
def nodeC1 : Node :=
  { m_faces := [1, 2, 3], m_faceCounter := 4,
    pit := [{ name := 0, incoming := [1, 2, 3], outgoing := [{ m_face := 1, m_sendTime := 2, m_waitingInVain := false }],
              seenNonces := [9], lifetime := 5, allowedRetx := 0, erased := false, fibKey := 0 }],
    fib := [{ fibKey := 0, m_faces := [{ m_face := 1, m_status := FibStatus.green, m_rtt := 7 }] }],
    cs := [], pitCapacity := 4, m_nacksEnabled := true, m_cacheUnsolicitedData := false }

/-- The PIT entry of `nodeC1`. -/
def entryC1 : PitEntry :=
  { name := 0, incoming := [1, 2, 3], outgoing := [{ m_face := 1, m_sendTime := 2, m_waitingInVain := false }],
    seenNonces := [9], lifetime := 5, allowedRetx := 0, erased := false, fibKey := 0 }

/-- The Data packet for name 0 used in the C1 counterexample and fixtures. -/
def dC1 : DataPkt := { name := 0, payload := 42 }

/-- Witness for C1 (amended): the same Data arriving on face 4, which has an
outgoing record and is not an incoming face. -/
def nodeC1w : Node :=
  { m_faces := [1, 2, 3, 4], m_faceCounter := 5,
    pit := [{ name := 0, incoming := [1, 2, 3], outgoing := [{ m_face := 4, m_sendTime := 2, m_waitingInVain := false }],
              seenNonces := [9], lifetime := 5, allowedRetx := 0, erased := false, fibKey := 0 }],
    fib := [{ fibKey := 0, m_faces := [{ m_face := 4, m_status := FibStatus.green, m_rtt := 7 }] }],
    cs := [], pitCapacity := 4, m_nacksEnabled := true, m_cacheUnsolicitedData := false }

/-- The PIT entry of `nodeC1w`. -/
def entryC1w : PitEntry :=
  { name := 0, incoming := [1, 2, 3], outgoing := [{ m_face := 4, m_sendTime := 2, m_waitingInVain := false }],
    seenNonces := [9], lifetime := 5, allowedRetx := 0, erased := false, fibKey := 0 }

/-- A concrete content-object packet whose header/trailer deserialization
fails. -/
def pktBadData : RawPacket :=
  { declaredType := HeaderType.contentObject, interestHdr := none,
    dataHdr := none, interestPayloadSize := 0 }

/-! ## General lemmas about the table combinators -/

theorem pitLookup_updatePit (pit : List PitEntry) (n : Nat) (f : PitEntry → PitEntry)
    (hf : ∀ e, (f e).name = e.name) :
    pitLookup (updatePit pit n f) n = (pitLookup pit n).map f := by
  induction pit with
  | nil => rfl
  | cons e rest ih =>
    by_cases h : e.name = n
    · simp [updatePit, pitLookup, h, hf e]
    · simp [updatePit, pitLookup, h, ih]

theorem pitLookup_updatePit_of_found (pit : List PitEntry) (n : Nat)
    (f : PitEntry → PitEntry) (e : PitEntry) (h : pitLookup pit n = some e)
    (hf : (f e).name = e.name) :
    pitLookup (updatePit pit n f) n = some (f e) := by
  induction pit with
  | nil => simp [pitLookup] at h
  | cons e₀ rest ih =>
    by_cases h₀ : e₀.name = n
    · have he : e = e₀ := by
        simp [pitLookup, h₀] at h
        exact h.symm
      subst he
      simp [updatePit, pitLookup, h₀, hf, h₀ ▸ hf]
    · simp [pitLookup, h₀] at h
      simp [updatePit, pitLookup, h₀, ih h]

theorem pitLookup_append_of_none (pit : List PitEntry) (n : Nat) (e : PitEntry)
    (h : pitLookup pit n = none) (he : e.name = n) :
    pitLookup (pit ++ [e]) n = some e := by
  induction pit with
  | nil => simp [pitLookup, he]
  | cons e₀ rest ih =>
    by_cases h₀ : e₀.name = n
    · simp [pitLookup, h₀] at h
    · simp [pitLookup, h₀] at h ⊢
      exact ih h

theorem pitLookup_name (pit : List PitEntry) (n : Nat) (e : PitEntry)
    (h : pitLookup pit n = some e) : e.name = n := by
  induction pit with
  | nil => simp [pitLookup] at h
  | cons e₀ rest ih =>
    by_cases h₀ : e₀.name = n
    · simp [pitLookup, h₀] at h
      exact h ▸ h₀
    · simp [pitLookup, h₀] at h
      exact ih h

theorem fibLookup_updateFib_of_found (fib : List FibEntry) (k : Nat)
    (f : FibEntry → FibEntry) (fe : FibEntry) (h : fibLookup fib k = some fe)
    (hf : (f fe).fibKey = fe.fibKey) :
    fibLookup (updateFib fib k f) k = some (f fe) := by
  induction fib with
  | nil => simp [fibLookup] at h
  | cons fe₀ rest ih =>
    by_cases h₀ : fe₀.fibKey = k
    · have he : fe = fe₀ := by
        simp [fibLookup, h₀] at h
        exact h.symm
      subst he
      simp [updateFib, fibLookup, h₀, hf, h₀ ▸ hf]
    · simp [fibLookup, h₀] at h
      simp [updateFib, fibLookup, h₀, ih h]

theorem fibLookup_updateFib_of_none (fib : List FibEntry) (k : Nat)
    (f : FibEntry → FibEntry) (h : fibLookup fib k = none) :
    fibLookup (updateFib fib k f) k = none := by
  induction fib with
  | nil => rfl
  | cons fe₀ rest ih =>
    by_cases h₀ : fe₀.fibKey = k
    · simp [fibLookup, h₀] at h
    · simp [fibLookup, h₀] at h
      simp [updateFib, fibLookup, h₀, ih h]

theorem find?_entryUpdateStatus (l : List FibFaceMetric) (face : Nat) (s : FibStatus) :
    ((l.map (fun m => if m.m_face = face then { m with m_status := s } else m)).find?
        (fun m => m.m_face == face))
      = (l.find? (fun m => m.m_face == face)).map
          (fun m => { m with m_status := s }) := by
  induction l with
  | nil => rfl
  | cons m rest ih =>
    by_cases hm : m.m_face = face
    · simp [List.find?, hm]
    · have hb : (m.m_face == face) = false := by simp [hm]
      simp [List.find?, hm, hb, ih]

/-- `UpdateStatus` sets the face's metric status to `s` exactly when the metric
exists, and touches nothing else of the lookup result. -/
theorem fibStatusOf_updateStatus (fib : List FibEntry) (k face : Nat) (s : FibStatus) :
    fibStatusOf (fibUpdateStatus fib k face s) k face
      = (fibStatusOf fib k face).map (fun _ => s) := by
  cases h : fibLookup fib k with
  | none =>
    have h2 := fibLookup_updateFib_of_none fib k (fun fe => entryUpdateStatus fe face s) h
    simp [fibStatusOf, fibUpdateStatus, h, h2]
  | some fe =>
    have h2 := fibLookup_updateFib_of_found fib k (fun fe => entryUpdateStatus fe face s) fe h rfl
    simp only [fibStatusOf, fibUpdateStatus, h, h2]
    simp only [entryUpdateStatus]
    rw [find?_entryUpdateStatus]
    cases hf : fe.m_faces.find? (fun m => m.m_face == face) <;> simp

/-- `GiveUpInterest` never touches the FIB. -/
theorem giveUpInterest_fib (node : Node) (n : Nat) (hdr : InterestPkt) :
    (GiveUpInterest node n hdr).1.fib = node.fib := by
  by_cases hn : node.m_nacksEnabled <;> cases hl : pitLookup node.pit n <;>
    simp [GiveUpInterest, hn, hl]

/-- The propagation tail never touches the FIB. -/
theorem interestPropagate_fib (node : Node) (face : Nat) (hdr : InterestPkt)
    (r p1 p2 : Bool) :
    (interestPropagate node face hdr r p1 p2).1.fib = node.fib := by
  cases p1 <;> cases r <;> cases p2 <;>
    simp [interestPropagate, giveUpInterest_fib]

/-- The propagation tail never reports `SUPPRESSED`. -/
theorem interestPropagate_not_suppressed (node : Node) (face : Nat)
    (hdr : InterestPkt) (r p1 p2 : Bool) :
    (interestPropagate node face hdr r p1 p2).2.2 ≠ Outcome.suppressed := by
  cases p1 <;> cases r <;> cases p2 <;> simp [interestPropagate]

/-- The propagation tail always records a `PropagateInterest` call with the
header's tag and the incoming face. -/
theorem interestPropagate_call_mem (node : Node) (face : Nat) (hdr : InterestPkt)
    (r p1 p2 : Bool) :
    Action.propagateCall face hdr.nack ∈ (interestPropagate node face hdr r p1 p2).2.1 := by
  cases p1 <;> cases r <;> cases p2 <;> simp [interestPropagate]

theorem findOutgoing_markInVain (l : List PitOutgoing) (face : Nat) :
    findOutgoing (l.map (fun og =>
        if og.m_face = face then { og with m_waitingInVain := true } else og)) face
      = (findOutgoing l face).map (fun og => { og with m_waitingInVain := true }) := by
  induction l with
  | nil => rfl
  | cons og rest ih =>
    by_cases h : og.m_face = face
    · simp [findOutgoing, h]
    · simp [findOutgoing, h, ih]

theorem nackUpdatedEntry_name (entry : PitEntry) (face : Nat) (t : NackType) :
    (nackUpdatedEntry entry face t).name = entry.name := by
  by_cases h : t = NackType.giveupPit <;>
    simp [nackUpdatedEntry, h, removeIncoming, setWaitingInVain]

theorem nackUpdatedEntry_outgoing (entry : PitEntry) (face : Nat) (t : NackType) :
    (nackUpdatedEntry entry face t).outgoing = (setWaitingInVain entry face).outgoing := by
  by_cases h : t = NackType.giveupPit <;>
    simp [nackUpdatedEntry, h, removeIncoming]

/-! ## C6: NACK reception -/

/-- C6: a NACK matching a PIT entry with an outgoing record for the arriving
face: the face's FIB metric is downgraded to yellow; whenever the entry
survives (`AFTER_SATISFIED`, `SUPPRESSED` or successful re-propagation), its
outgoing record for the face is marked waiting-in-vain; if the updated
incoming set is empty, processing stops `AFTER_SATISFIED` with no action; if
not all outgoing records are in vain, the NACK is `SUPPRESSED` with no
forwarding; and a re-propagation — with the NACK tag cleared to
`NORMAL_INTEREST` — is attempted exactly when all outgoing records are in
vain (and the incoming set is non-empty). -/
theorem onNack_processing (node : Node) (face : Nat) (hdr : InterestPkt)
    (prop : Bool) (entry : PitEntry) (og : PitOutgoing)
    (hl : pitLookup node.pit hdr.name = some entry)
    (hout : findOutgoing entry.outgoing face = some og) :
    fibStatusOf (OnNack node face hdr prop).1.fib entry.fibKey face
      = (fibStatusOf node.fib entry.fibKey face).map (fun _ => FibStatus.yellow)
    ∧ ((OnNack node face hdr prop).2.2 = Outcome.afterSatisfied
        ∨ (OnNack node face hdr prop).2.2 = Outcome.nackSuppressed
        ∨ (OnNack node face hdr prop).2.2 = Outcome.nackForwarded →
       ∃ e', pitLookup (OnNack node face hdr prop).1.pit hdr.name = some e'
         ∧ findOutgoing e'.outgoing face = some { og with m_waitingInVain := true })
    ∧ ((nackUpdatedEntry entry face hdr.nack).incoming = [] →
       (OnNack node face hdr prop).2.2 = Outcome.afterSatisfied
       ∧ (OnNack node face hdr prop).2.1 = [])
    ∧ ((nackUpdatedEntry entry face hdr.nack).incoming ≠ [] →
       areAllOutgoingInVain (nackUpdatedEntry entry face hdr.nack) = false →
       (OnNack node face hdr prop).2.2 = Outcome.nackSuppressed
       ∧ (OnNack node face hdr prop).2.1 = [])
    ∧ ((nackUpdatedEntry entry face hdr.nack).incoming ≠ [] →
       areAllOutgoingInVain (nackUpdatedEntry entry face hdr.nack) = true →
       Action.propagateCall face NackType.normal ∈ (OnNack node face hdr prop).2.1)
    ∧ ((OnNack node face hdr prop).2.2 = Outcome.nackForwarded
        ∨ (OnNack node face hdr prop).2.2 = Outcome.nackNoFaces →
       (nackUpdatedEntry entry face hdr.nack).incoming ≠ []
       ∧ areAllOutgoingInVain (nackUpdatedEntry entry face hdr.nack) = true) := by
  have hup := pitLookup_updatePit_of_found node.pit hdr.name
    (fun _ => nackUpdatedEntry entry face hdr.nack) entry hl
    (nackUpdatedEntry_name entry face hdr.nack)
  have hfind : findOutgoing (nackUpdatedEntry entry face hdr.nack).outgoing face
      = some { og with m_waitingInVain := true } := by
    rw [nackUpdatedEntry_outgoing]
    simp only [setWaitingInVain]
    rw [findOutgoing_markInVain, hout]
    rfl
  by_cases hi : (nackUpdatedEntry entry face hdr.nack).incoming = []
  · refine ⟨?_, ?_, ?_, ?_, ?_, ?_⟩
    · simp [OnNack, hl, hout, hi, fibStatusOf_updateStatus]
    · intro _
      refine ⟨nackUpdatedEntry entry face hdr.nack, ?_, hfind⟩
      simp [OnNack, hl, hout, hi, hup]
    · intro _
      constructor <;> simp [OnNack, hl, hout, hi]
    · intro h; exact absurd hi h
    · intro h; exact absurd hi h
    · intro h
      have : (OnNack node face hdr prop).2.2 = Outcome.afterSatisfied := by
        simp [OnNack, hl, hout, hi]
      rcases h with h | h <;> rw [this] at h <;> exact absurd h (by decide)
  · by_cases ha : areAllOutgoingInVain (nackUpdatedEntry entry face hdr.nack)
    · refine ⟨?_, ?_, ?_, ?_, ?_, ?_⟩
      · cases prop
        · simp [OnNack, hl, hout, hi, ha, giveUpInterest_fib, fibStatusOf_updateStatus]
        · simp [OnNack, hl, hout, hi, ha, fibStatusOf_updateStatus]
      · intro ho
        cases prop
        · have hoc : (OnNack node face hdr false).2.2 = Outcome.nackNoFaces := by
            simp [OnNack, hl, hout, hi, ha]
          rcases ho with h | h | h <;> rw [hoc] at h <;> exact absurd h (by decide)
        · refine ⟨nackUpdatedEntry entry face hdr.nack, ?_, hfind⟩
          simp [OnNack, hl, hout, hi, ha, hup]
      · intro h; exact absurd h hi
      · intro _ h
        rw [ha] at h
        exact absurd h (by decide)
      · intro _ _
        cases prop <;> simp [OnNack, hl, hout, hi, ha]
      · intro _
        exact ⟨hi, ha⟩
    · refine ⟨?_, ?_, ?_, ?_, ?_, ?_⟩
      · simp [OnNack, hl, hout, hi, ha, fibStatusOf_updateStatus]
      · intro _
        refine ⟨nackUpdatedEntry entry face hdr.nack, ?_, hfind⟩
        simp [OnNack, hl, hout, hi, ha, hup]
      · intro h; exact absurd h hi
      · intro _ _
        constructor <;> simp [OnNack, hl, hout, hi, ha]
      · intro _ h
        rw [h] at ha
        exact absurd rfl ha
      · intro h
        have : (OnNack node face hdr prop).2.2 = Outcome.nackSuppressed := by
          simp [OnNack, hl, hout, hi, ha]
        rcases h with h | h <;> rw [this] at h <;> exact absurd h (by decide)

/-- Witness for C6 at `nodeC6`: the loop NACK arrives on face 4 and the
re-propagation succeeds. -/
theorem onNack_processing_witness :
    pitLookup nodeC6.pit hdrC6.name = some entryC6 ∧
    findOutgoing entryC6.outgoing 4 = some ogC6 ∧
    (fibStatusOf (OnNack nodeC6 4 hdrC6 true).1.fib entryC6.fibKey 4
      = (fibStatusOf nodeC6.fib entryC6.fibKey 4).map (fun _ => FibStatus.yellow)
    ∧ ((OnNack nodeC6 4 hdrC6 true).2.2 = Outcome.afterSatisfied
        ∨ (OnNack nodeC6 4 hdrC6 true).2.2 = Outcome.nackSuppressed
        ∨ (OnNack nodeC6 4 hdrC6 true).2.2 = Outcome.nackForwarded →
       ∃ e', pitLookup (OnNack nodeC6 4 hdrC6 true).1.pit hdrC6.name = some e'
         ∧ findOutgoing e'.outgoing 4 = some { ogC6 with m_waitingInVain := true })
    ∧ ((nackUpdatedEntry entryC6 4 hdrC6.nack).incoming = [] →
       (OnNack nodeC6 4 hdrC6 true).2.2 = Outcome.afterSatisfied
       ∧ (OnNack nodeC6 4 hdrC6 true).2.1 = [])
    ∧ ((nackUpdatedEntry entryC6 4 hdrC6.nack).incoming ≠ [] →
       areAllOutgoingInVain (nackUpdatedEntry entryC6 4 hdrC6.nack) = false →
       (OnNack nodeC6 4 hdrC6 true).2.2 = Outcome.nackSuppressed
       ∧ (OnNack nodeC6 4 hdrC6 true).2.1 = [])
    ∧ ((nackUpdatedEntry entryC6 4 hdrC6.nack).incoming ≠ [] →
       areAllOutgoingInVain (nackUpdatedEntry entryC6 4 hdrC6.nack) = true →
       Action.propagateCall 4 NackType.normal ∈ (OnNack nodeC6 4 hdrC6 true).2.1)
    ∧ ((OnNack nodeC6 4 hdrC6 true).2.2 = Outcome.nackForwarded
        ∨ (OnNack nodeC6 4 hdrC6 true).2.2 = Outcome.nackNoFaces →
       (nackUpdatedEntry entryC6 4 hdrC6.nack).incoming ≠ []
       ∧ areAllOutgoingInVain (nackUpdatedEntry entryC6 4 hdrC6.nack) = true)) :=
  ⟨by decide, by decide, onNack_processing nodeC6 4 hdrC6 true entryC6 ogC6 (by decide) (by decide)⟩

/-! ## C3: RemoveFace purges the PIT -/

/-- C3: `RemoveFace` removes the face from every PIT entry's incoming and
outgoing sets, and marks erased every PIT entry whose associated FIB entry
contains only the removed face. Stated positionally: the entry at index `i`
of the PIT becomes an entry purged of the face, erased when its FIB entry
held only that face. -/
theorem removeFace_purges_pit (node : Node) (face i : Nat) (e : PitEntry)
    (hi : node.pit[i]? = some e) :
    ∃ e', (RemoveFace node face).1.pit[i]? = some e' ∧
      face ∉ e'.incoming ∧ (∀ og ∈ e'.outgoing, og.m_face ≠ face) ∧
      (fibOnlyFace node.fib e face = true → e'.erased = true) := by
  have hpit : (RemoveFace node face).1.pit
      = (node.pit.map (fun x => removeAllReferencesToFace x face)).map
          (fun y => if fibOnlyFace node.fib y face then markErased y else y) := by
    by_cases hm : face ∈ node.m_faces <;> simp [RemoveFace, hm]
  refine ⟨(fun y => if fibOnlyFace node.fib y face then markErased y else y)
            (removeAllReferencesToFace e face), ?_, ?_, ?_, ?_⟩
  · rw [hpit]
    simp [List.getElem?_map, hi]
  · have hinc : ((fun y => if fibOnlyFace node.fib y face then markErased y else y)
        (removeAllReferencesToFace e face)).incoming
        = (removeAllReferencesToFace e face).incoming := by
      by_cases hc : fibOnlyFace node.fib (removeAllReferencesToFace e face) face
        <;> simp [hc, markErased]
    rw [hinc]
    simp [removeAllReferencesToFace]
  · have hout : ((fun y => if fibOnlyFace node.fib y face then markErased y else y)
        (removeAllReferencesToFace e face)).outgoing
        = (removeAllReferencesToFace e face).outgoing := by
      by_cases hc : fibOnlyFace node.fib (removeAllReferencesToFace e face) face
        <;> simp [hc, markErased]
    rw [hout]
    intro og hog
    simp [removeAllReferencesToFace] at hog
    exact hog.2
  · intro hc
    have hc' : fibOnlyFace node.fib (removeAllReferencesToFace e face) face = true := hc
    simp [hc', markErased]

/-- Witness for C3 at `nodeC3`, removing face 1. -/
theorem removeFace_purges_pit_witness :
    nodeC3.pit[0]? = some entryC3 ∧
    ∃ e', (RemoveFace nodeC3 1).1.pit[0]? = some e' ∧
      1 ∉ e'.incoming ∧ (∀ og ∈ e'.outgoing, og.m_face ≠ 1) ∧
      (fibOnlyFace nodeC3.fib entryC3 1 = true → e'.erased = true) :=
  ⟨by decide, removeFace_purges_pit nodeC3 1 0 entryC3 (by decide)⟩

/-! ## C8: the give-up procedure -/

/-- C8: with NACKs enabled, `GiveUpInterest` sends exactly one
`NACK_GIVEUP_PIT`-tagged copy of the Interest to each face of the entry's
incoming set, then clears both sets and marks the entry erased; with NACKs
disabled it performs zero sends and leaves the node state unchanged. -/
theorem giveUpInterest_spec (node : Node) (hdr : InterestPkt) (entry : PitEntry)
    (hl : pitLookup node.pit hdr.name = some entry) :
    (node.m_nacksEnabled = true →
       (GiveUpInterest node hdr.name hdr).2
         = entry.incoming.map (fun f =>
             Action.send f (Pkt.interest { hdr with nack := NackType.giveupPit }))
       ∧ (entry.incoming.Nodup → ∀ f ∈ entry.incoming,
            (GiveUpInterest node hdr.name hdr).2.count
              (Action.send f (Pkt.interest { hdr with nack := NackType.giveupPit })) = 1)
       ∧ ∃ e', pitLookup (GiveUpInterest node hdr.name hdr).1.pit hdr.name = some e' ∧
           e'.incoming = [] ∧ e'.outgoing = [] ∧ e'.erased = true)
    ∧ (node.m_nacksEnabled = false →
       (GiveUpInterest node hdr.name hdr).2 = []
       ∧ (GiveUpInterest node hdr.name hdr).1 = node) := by
  constructor
  · intro hn
    have hres : GiveUpInterest node hdr.name hdr
        = ({ node with pit := (updatePit node.pit hdr.name
               (fun e => markErased { e with incoming := [], outgoing := [] })) },
           entry.incoming.map (fun f =>
             Action.send f (Pkt.interest { hdr with nack := NackType.giveupPit }))) := by
      simp [GiveUpInterest, hn, hl]
    refine ⟨by rw [hres], ?_, ?_⟩
    · intro hnd f hf
      rw [hres]
      have hinj : Function.Injective (fun f =>
          Action.send f (Pkt.interest { hdr with nack := NackType.giveupPit })) := by
        intro a b hab
        simpa using hab
      exact (List.count_map_of_injective entry.incoming _ hinj f).trans
        (List.count_eq_one_of_mem hnd hf)
    · rw [hres]
      simp only
      refine ⟨markErased { entry with incoming := [], outgoing := [] }, ?_, rfl, rfl, rfl⟩
      exact pitLookup_updatePit_of_found node.pit hdr.name _ entry hl rfl
  · intro hn
    constructor <;> simp [GiveUpInterest, hn]

/-- Witness for C8 at `nodeC8`. -/
theorem giveUpInterest_spec_witness :
    pitLookup nodeC8.pit hdrC8.name = some entryC8 ∧
    ((nodeC8.m_nacksEnabled = true →
       (GiveUpInterest nodeC8 hdrC8.name hdrC8).2
         = entryC8.incoming.map (fun f =>
             Action.send f (Pkt.interest { hdrC8 with nack := NackType.giveupPit }))
       ∧ (entryC8.incoming.Nodup → ∀ f ∈ entryC8.incoming,
            (GiveUpInterest nodeC8 hdrC8.name hdrC8).2.count
              (Action.send f (Pkt.interest { hdrC8 with nack := NackType.giveupPit })) = 1)
       ∧ ∃ e', pitLookup (GiveUpInterest nodeC8 hdrC8.name hdrC8).1.pit hdrC8.name = some e' ∧
           e'.incoming = [] ∧ e'.outgoing = [] ∧ e'.erased = true)
     ∧ (nodeC8.m_nacksEnabled = false →
       (GiveUpInterest nodeC8 hdrC8.name hdrC8).2 = []
       ∧ (GiveUpInterest nodeC8 hdrC8.name hdrC8).1 = nodeC8)) :=
  ⟨by decide, giveUpInterest_spec nodeC8 hdrC8 entryC8 (by decide)⟩

/-! ## C9: removing an unregistered face is a fatal assertion -/

/-- C9: calling `RemoveFace` with a face not present in the face list trips the
fatal assertion "Attempt to remove face that doesn't exist"; under the
precondition that the face is registered, the fatal branch is unreachable and
the face is removed from the face list. -/
theorem removeFace_unregistered_asserts (node : Node) (face : Nat)
    (hnd : node.m_faces.Nodup) :
    (face ∉ node.m_faces →
       (RemoveFace node face).2 =
         FaceRemovalResult.assertionFailed "Attempt to remove face that doesn't exist")
    ∧ (face ∈ node.m_faces →
       (RemoveFace node face).2 = FaceRemovalResult.ok ∧
         face ∉ (RemoveFace node face).1.m_faces) := by
  constructor
  · intro h
    simp [RemoveFace, h]
  · intro h
    refine ⟨by simp [RemoveFace, h], ?_⟩
    simp [RemoveFace, h]
    exact hnd.not_mem_erase

/-- Witness for C9 at a concrete node with faces `[0, 1]`. -/
theorem removeFace_unregistered_asserts_witness :
    nodeTwoFaces.m_faces.Nodup ∧
    ((7 ∉ nodeTwoFaces.m_faces →
       (RemoveFace nodeTwoFaces 7).2 =
         FaceRemovalResult.assertionFailed "Attempt to remove face that doesn't exist")
     ∧ (7 ∈ nodeTwoFaces.m_faces →
       (RemoveFace nodeTwoFaces 7).2 = FaceRemovalResult.ok ∧
         7 ∉ (RemoveFace nodeTwoFaces 7).1.m_faces)) :=
  ⟨by decide, removeFace_unregistered_asserts nodeTwoFaces 7 (by decide)⟩

/-! ## C10: Interests with leftover payload trip a fatal assertion -/

/-- C10: a packet classified as an Interest whose payload after header removal
is non-zero makes `Receive` raise the fatal assertion "Payload of Interests
should be zero" rather than dropping the packet; with zero payload the
assertion branch is unreachable and the Interest is dispatched. -/
theorem receive_interest_payload_asserts (p : RawPacket) (hdr : InterestPkt)
    (ht : p.declaredType = HeaderType.interest) (hh : p.interestHdr = some hdr) :
    (p.interestPayloadSize ≠ 0 →
       Receive true p = RxResult.assertionFailed "Payload of Interests should be zero")
    ∧ (p.interestPayloadSize = 0 →
       Receive true p = RxResult.dispatchInterest hdr) := by
  constructor <;> intro h <;> simp [Receive, ht, hh, h]

/-- Witness for C10 at a concrete Interest packet carrying 3 payload bytes. -/
theorem receive_interest_payload_asserts_witness :
    pktPayload3.declaredType = HeaderType.interest ∧
    pktPayload3.interestHdr = some hdrFive ∧
    ((pktPayload3.interestPayloadSize ≠ 0 →
       Receive true pktPayload3 =
         RxResult.assertionFailed "Payload of Interests should be zero")
     ∧ (pktPayload3.interestPayloadSize = 0 →
       Receive true pktPayload3 = RxResult.dispatchInterest hdrFive)) :=
  ⟨rfl, rfl, receive_interest_payload_asserts pktPayload3 hdrFive rfl rfl⟩

/-! ## C4: duplicate Interests -/

/-- C4: an Interest whose nonce is already in its PIT entry's seen-nonce set
yields the `DUPLICATED` outcome and is not forwarded to any face; if NACKs are
enabled exactly one loop-tagged NACK is reflected back to the arriving face
(and nothing is sent with NACKs disabled); and the arriving face ends up
registered in the entry's incoming set (created if absent). -/
theorem onInterest_duplicate (node : Node) (face : Nat) (hdr : InterestPkt)
    (p1 p2 : Bool) (entry : PitEntry)
    (hl : pitLookup node.pit hdr.name = some entry)
    (hd : hdr.nonce ∈ entry.seenNonces) :
    (OnInterest node face hdr p1 p2).2.2 = Outcome.duplicated
    ∧ (node.m_nacksEnabled = true →
        (OnInterest node face hdr p1 p2).2.1
          = [Action.send face (Pkt.interest { hdr with nack := NackType.loop })])
    ∧ (node.m_nacksEnabled = false → (OnInterest node face hdr p1 p2).2.1 = [])
    ∧ ∃ e', pitLookup (OnInterest node face hdr p1 p2).1.pit hdr.name = some e'
        ∧ face ∈ e'.incoming := by
  refine ⟨?_, ?_, ?_, ?_⟩
  · by_cases hm : face ∈ entry.incoming <;> by_cases hn : node.m_nacksEnabled <;>
      simp [OnInterest, hl, hd, hm, hn]
  · intro hn
    by_cases hm : face ∈ entry.incoming <;> simp [OnInterest, hl, hd, hm, hn]
  · intro hn
    by_cases hm : face ∈ entry.incoming <;> simp [OnInterest, hl, hd, hm, hn]
  · by_cases hm : face ∈ entry.incoming
    · refine ⟨entry, ?_, hm⟩
      have hup := pitLookup_updatePit_of_found node.pit hdr.name (fun _ => entry) entry hl rfl
      by_cases hn : node.m_nacksEnabled <;> simp [OnInterest, hl, hd, hm, hn, hup]
    · refine ⟨{ entry with incoming := entry.incoming ++ [face] }, ?_, by simp⟩
      have hup := pitLookup_updatePit_of_found node.pit hdr.name
        (fun _ => { entry with incoming := entry.incoming ++ [face] }) entry hl rfl
      by_cases hn : node.m_nacksEnabled <;> simp [OnInterest, hl, hd, hm, hn, hup]

/-- Witness for C4 at `nodeC4` with a duplicate (name 4, nonce 9) from face 2. -/
theorem onInterest_duplicate_witness :
    pitLookup nodeC4.pit hdrC8.name = some entryC4 ∧ hdrC8.nonce ∈ entryC4.seenNonces ∧
    ((OnInterest nodeC4 2 hdrC8 true true).2.2 = Outcome.duplicated
     ∧ (nodeC4.m_nacksEnabled = true →
        (OnInterest nodeC4 2 hdrC8 true true).2.1
          = [Action.send 2 (Pkt.interest { hdrC8 with nack := NackType.loop })])
     ∧ (nodeC4.m_nacksEnabled = false → (OnInterest nodeC4 2 hdrC8 true true).2.1 = [])
     ∧ ∃ e', pitLookup (OnInterest nodeC4 2 hdrC8 true true).1.pit hdrC8.name = some e'
        ∧ 2 ∈ e'.incoming) :=
  ⟨by decide, by decide, onInterest_duplicate nodeC4 2 hdrC8 true true entryC4 (by decide) (by decide)⟩

/-! ## C7: content-store hit leaves the FIB and outgoing set untouched -/

/-- C7: when an Interest's name hits in the content store during processing —
against an existing PIT entry the Interest is not a duplicate of, or against
the PIT entry this very Interest creates (PIT miss with free capacity) — the
requester is satisfied from cache through the `OnDataDelayed` fan-out (a Data
send to the arriving face occurs), no `PropagateInterest` call is made (hence
no FIB consultation and no outgoing-entry creation), the node's FIB — every
face metric's status and RTT — is left unchanged, and the entry ends with an
empty outgoing set. -/
theorem onInterest_cacheHit_frame (node : Node) (face : Nat) (hdr : InterestPkt)
    (p1 p2 : Bool) (payload : Nat)
    (hcs : csLookup node.cs hdr.name = some payload)
    (hcase : (∃ entry, pitLookup node.pit hdr.name = some entry
                ∧ hdr.nonce ∉ entry.seenNonces)
             ∨ (pitLookup node.pit hdr.name = none
                ∧ node.pit.length < node.pitCapacity)) :
    (OnInterest node face hdr p1 p2).1.fib = node.fib
    ∧ (∀ a ∈ (OnInterest node face hdr p1 p2).2.1, ∀ g t, a ≠ Action.propagateCall g t)
    ∧ Action.send face (Pkt.dataPkt { name := hdr.name, payload := payload })
        ∈ (OnInterest node face hdr p1 p2).2.1
    ∧ (∃ e', pitLookup (OnInterest node face hdr p1 p2).1.pit hdr.name = some e'
         ∧ e'.outgoing = [])
    ∧ (OnInterest node face hdr p1 p2).2.2 = Outcome.cacheHit := by
  rcases hcase with ⟨entry, hl, hnd⟩ | ⟨hnone, hcap⟩
  case inr =>
    have hlk := pitLookup_append_of_none node.pit hdr.name
      { name := hdr.name, incoming := [], outgoing := [], seenNonces := [],
        lifetime := hdr.lifetime, allowedRetx := 0, erased := false, fibKey := hdr.name }
      hnone rfl
    have hup := pitLookup_updatePit_of_found
      (node.pit ++ [{ name := hdr.name, incoming := [], outgoing := [], seenNonces := [], lifetime := hdr.lifetime, allowedRetx := 0, erased := false, fibKey := hdr.name }])
      hdr.name
      (fun _ => { name := hdr.name, incoming := [face], outgoing := [], seenNonces := [hdr.nonce], lifetime := hdr.lifetime, allowedRetx := 0, erased := false, fibKey := hdr.name })
      { name := hdr.name, incoming := [], outgoing := [], seenNonces := [], lifetime := hdr.lifetime, allowedRetx := 0, erased := false, fibKey := hdr.name }
      hlk rfl
    have hup₂ := pitLookup_updatePit_of_found
      (updatePit
        (node.pit ++ [{ name := hdr.name, incoming := [], outgoing := [], seenNonces := [], lifetime := hdr.lifetime, allowedRetx := 0, erased := false, fibKey := hdr.name }])
        hdr.name
        (fun _ => { name := hdr.name, incoming := [face], outgoing := [], seenNonces := [hdr.nonce], lifetime := hdr.lifetime, allowedRetx := 0, erased := false, fibKey := hdr.name }))
      hdr.name (fun e => markErased { e with incoming := [], outgoing := [] })
      { name := hdr.name, incoming := [face], outgoing := [], seenNonces := [hdr.nonce], lifetime := hdr.lifetime, allowedRetx := 0, erased := false, fibKey := hdr.name }
      hup rfl
    refine ⟨?_, ?_, ?_, ?_, ?_⟩
    · simp [OnInterest, hnone, pitCreate, hcap, hcs, OnDataDelayed, hup]
    · intro a ha g t
      simp [OnInterest, hnone, pitCreate, hcap, hcs, OnDataDelayed, hup] at ha
      subst ha
      simp
    · simp [OnInterest, hnone, pitCreate, hcap, hcs, OnDataDelayed, hup]
    · refine ⟨markErased { name := hdr.name, incoming := [], outgoing := [], seenNonces := [hdr.nonce], lifetime := hdr.lifetime, allowedRetx := 0, erased := false, fibKey := hdr.name }, ?_, rfl⟩
      simp only [markErased] at hup₂
      simp [OnInterest, hnone, pitCreate, hcap, hcs, OnDataDelayed, hup, markErased, hup₂]
    · simp [OnInterest, hnone, pitCreate, hcap, hcs, OnDataDelayed, hup]
  by_cases hm : face ∈ entry.incoming
  · have hup := pitLookup_updatePit_of_found node.pit hdr.name
      (fun _ => { entry with seenNonces := entry.seenNonces ++ [hdr.nonce] }) entry hl rfl
    have hpos : 0 < entry.incoming.length := List.length_pos.mpr (by
      intro h; rw [h] at hm; exact (List.not_mem_nil face) hm)
    have hup₂ := pitLookup_updatePit_of_found
      (updatePit node.pit hdr.name
        (fun _ => { entry with seenNonces := entry.seenNonces ++ [hdr.nonce] }))
      hdr.name (fun e => markErased { e with incoming := [], outgoing := [] })
      { entry with seenNonces := entry.seenNonces ++ [hdr.nonce] } hup rfl
    refine ⟨?_, ?_, ?_, ?_, ?_⟩
    · simp [OnInterest, hl, hnd, hm, hcs, OnDataDelayed, hup, hpos]
    · intro a ha g t
      simp [OnInterest, hl, hnd, hm, hcs, OnDataDelayed, hup, hpos] at ha
      obtain ⟨f, _, rfl⟩ := ha
      simp
    · simp [OnInterest, hl, hnd, hm, hcs, OnDataDelayed, hup, hpos]
    · refine ⟨markErased { entry with incoming := [], outgoing := [], seenNonces := entry.seenNonces ++ [hdr.nonce] }, ?_, rfl⟩
      simp only [markErased] at hup₂
      simp [OnInterest, hl, hnd, hm, hcs, OnDataDelayed, hup, hpos, markErased, hup₂]
    · simp [OnInterest, hl, hnd, hm, hcs, OnDataDelayed, hup, hpos]
  · have hup := pitLookup_updatePit_of_found node.pit hdr.name
      (fun _ => { entry with seenNonces := entry.seenNonces ++ [hdr.nonce], incoming := entry.incoming ++ [face] }) entry hl rfl
    have hpos : 0 < (entry.incoming ++ [face]).length := by simp
    have hup₂ := pitLookup_updatePit_of_found
      (updatePit node.pit hdr.name
        (fun _ => { entry with seenNonces := entry.seenNonces ++ [hdr.nonce], incoming := entry.incoming ++ [face] }))
      hdr.name (fun e => markErased { e with incoming := [], outgoing := [] })
      { entry with seenNonces := entry.seenNonces ++ [hdr.nonce], incoming := entry.incoming ++ [face] } hup rfl
    refine ⟨?_, ?_, ?_, ?_, ?_⟩
    · simp [OnInterest, hl, hnd, hm, hcs, OnDataDelayed, hup, hpos]
    · intro a ha g t
      simp [OnInterest, hl, hnd, hm, hcs, OnDataDelayed, hup, hpos] at ha
      rcases ha with ⟨f, _, rfl⟩ | rfl <;> simp
    · simp [OnInterest, hl, hnd, hm, hcs, OnDataDelayed, hup, hpos]
    · refine ⟨markErased { entry with incoming := [], outgoing := [], seenNonces := entry.seenNonces ++ [hdr.nonce] }, ?_, rfl⟩
      simp only [markErased] at hup₂
      simp [OnInterest, hl, hnd, hm, hcs, OnDataDelayed, hup, hpos, markErased, hup₂]
    · simp [OnInterest, hl, hnd, hm, hcs, OnDataDelayed, hup, hpos]

/-- Witness for C7: a fresh-nonce Interest for cached name 4 from face 2,
once at `nodeC7` (existing PIT entry) and once at `nodeC7c` (empty PIT, so
the entry is created by this very Interest). -/
theorem onInterest_cacheHit_frame_witness :
    csLookup nodeC7.cs hdrC7.name = some 42 ∧
    (pitLookup nodeC7.pit hdrC7.name = some entryC4 ∧ hdrC7.nonce ∉ entryC4.seenNonces) ∧
    ((OnInterest nodeC7 2 hdrC7 true true).1.fib = nodeC7.fib
     ∧ (∀ a ∈ (OnInterest nodeC7 2 hdrC7 true true).2.1, ∀ g t, a ≠ Action.propagateCall g t)
     ∧ Action.send 2 (Pkt.dataPkt { name := hdrC7.name, payload := 42 })
        ∈ (OnInterest nodeC7 2 hdrC7 true true).2.1
     ∧ (∃ e', pitLookup (OnInterest nodeC7 2 hdrC7 true true).1.pit hdrC7.name = some e'
         ∧ e'.outgoing = [])
     ∧ (OnInterest nodeC7 2 hdrC7 true true).2.2 = Outcome.cacheHit) ∧
    csLookup nodeC7c.cs hdrC7.name = some 42 ∧
    (pitLookup nodeC7c.pit hdrC7.name = none ∧ nodeC7c.pit.length < nodeC7c.pitCapacity) ∧
    ((OnInterest nodeC7c 2 hdrC7 true true).1.fib = nodeC7c.fib
     ∧ (∀ a ∈ (OnInterest nodeC7c 2 hdrC7 true true).2.1, ∀ g t, a ≠ Action.propagateCall g t)
     ∧ Action.send 2 (Pkt.dataPkt { name := hdrC7.name, payload := 42 })
        ∈ (OnInterest nodeC7c 2 hdrC7 true true).2.1
     ∧ (∃ e', pitLookup (OnInterest nodeC7c 2 hdrC7 true true).1.pit hdrC7.name = some e'
         ∧ e'.outgoing = [])
     ∧ (OnInterest nodeC7c 2 hdrC7 true true).2.2 = Outcome.cacheHit) :=
  ⟨by decide, ⟨by decide, by decide⟩,
   onInterest_cacheHit_frame nodeC7 2 hdrC7 true true 42 (by decide)
     (Or.inl ⟨entryC4, by decide, by decide⟩),
   by decide, ⟨by decide, by decide⟩,
   onInterest_cacheHit_frame nodeC7c 2 hdrC7 true true 42 (by decide)
     (Or.inr ⟨by decide, by decide⟩)⟩

/-! ## C5: suppression policy for non-duplicate Interests -/

/-- C5 counterexample: a non-duplicate Interest arriving on face 4 — which has
an outgoing record in its PIT entry — while the content store holds the name:
the interest is answered from cache, there is no propagation attempt and face
4's FIB status stays green, so "demoted to degraded (yellow) before the
propagation attempt" fails at this input (the claim holds only when the
content store misses). -/
theorem onInterest_demote_yellow_cex :
    pitLookup nodeC5.pit hdrC5.name = some entryC5 ∧
    hdrC5.nonce ∉ entryC5.seenNonces ∧
    (findOutgoing entryC5.outgoing 4).isSome = true ∧
    fibStatusOf (OnInterest nodeC5 4 hdrC5 true true).1.fib 0 4 = some FibStatus.green ∧
    (OnInterest nodeC5 4 hdrC5 true true).2.1
      = [Action.send 2 (Pkt.dataPkt { name := 0, payload := 99 }),
         Action.send 4 (Pkt.dataPkt { name := 0, payload := 99 })] ∧
    (OnInterest nodeC5 4 hdrC5 true true).2.2 = Outcome.cacheHit := by
  decide

/-- C5 (amended): for every non-duplicate Interest that misses the content
store: if the arriving face already has an outgoing record in the PIT entry,
the Interest is not suppressed, a propagation attempt is made, and the face's
FIB status is demoted to yellow (the FIB after processing shows yellow for
whatever metric the face had); otherwise, if the Interest is neither new
(both sets empty before arrival) nor a retransmission (arriving face already
incoming), it is dropped `SUPPRESSED` with no action at all. -/
theorem onInterest_suppression (node : Node) (face : Nat) (hdr : InterestPkt)
    (p1 p2 : Bool) (entry : PitEntry)
    (hl : pitLookup node.pit hdr.name = some entry)
    (hnd : hdr.nonce ∉ entry.seenNonces)
    (hcs : csLookup node.cs hdr.name = none) :
    ((findOutgoing entry.outgoing face).isSome = true →
       (OnInterest node face hdr p1 p2).2.2 ≠ Outcome.suppressed
       ∧ Action.propagateCall face hdr.nack ∈ (OnInterest node face hdr p1 p2).2.1
       ∧ fibStatusOf (OnInterest node face hdr p1 p2).1.fib entry.fibKey face
           = (fibStatusOf node.fib entry.fibKey face).map (fun _ => FibStatus.yellow))
    ∧ (findOutgoing entry.outgoing face = none →
       ¬(entry.incoming = [] ∧ entry.outgoing = []) →
       face ∉ entry.incoming →
       (OnInterest node face hdr p1 p2).2.2 = Outcome.suppressed
       ∧ (OnInterest node face hdr p1 p2).2.1 = []) := by
  constructor
  · intro ho
    refine ⟨?_, ?_, ?_⟩
    · simp only [OnInterest, hl, hnd, hcs, ho]
      simp [hnd, hcs, ho, interestPropagate_not_suppressed]
    · simp only [OnInterest, hl, hnd, hcs, ho]
      simp [hnd, hcs, ho, interestPropagate_call_mem]
    · simp only [OnInterest, hl, hnd, hcs, ho]
      simp [hnd, hcs, ho, interestPropagate_fib, fibStatusOf_updateStatus]
  · intro ho hne hni
    have hnew : (entry.incoming.isEmpty && entry.outgoing.isEmpty) = false := by
      by_cases h1 : entry.incoming = []
      · have h2 : entry.outgoing ≠ [] := fun h => hne ⟨h1, h⟩
        simp [h1, List.isEmpty_iff, h2]
      · simp [List.isEmpty_iff, h1]
    constructor <;> simp [OnInterest, hl, hnd, hcs, ho, hnew, hni]

/-- Witness for C5 (amended) at `nodeC5w`: the Interest arrives on face 4 (has
an outgoing record — demote-and-propagate branch) and on face 5 (no outgoing
record, entry not new, not a retransmission — genuine suppression branch). -/
theorem onInterest_suppression_witness :
    pitLookup nodeC5w.pit hdrC5.name = some entryC5 ∧
    hdrC5.nonce ∉ entryC5.seenNonces ∧
    csLookup nodeC5w.cs hdrC5.name = none ∧
    (((findOutgoing entryC5.outgoing 4).isSome = true →
       (OnInterest nodeC5w 4 hdrC5 true true).2.2 ≠ Outcome.suppressed
       ∧ Action.propagateCall 4 hdrC5.nack ∈ (OnInterest nodeC5w 4 hdrC5 true true).2.1
       ∧ fibStatusOf (OnInterest nodeC5w 4 hdrC5 true true).1.fib entryC5.fibKey 4
           = (fibStatusOf nodeC5w.fib entryC5.fibKey 4).map (fun _ => FibStatus.yellow))
     ∧ (findOutgoing entryC5.outgoing 4 = none →
       ¬(entryC5.incoming = [] ∧ entryC5.outgoing = []) →
       4 ∉ entryC5.incoming →
       (OnInterest nodeC5w 4 hdrC5 true true).2.2 = Outcome.suppressed
       ∧ (OnInterest nodeC5w 4 hdrC5 true true).2.1 = [])) ∧
    (findOutgoing entryC5.outgoing 5 = none →
       ¬(entryC5.incoming = [] ∧ entryC5.outgoing = []) →
       5 ∉ entryC5.incoming →
       (OnInterest nodeC5w 5 hdrC5 true true).2.2 = Outcome.suppressed
       ∧ (OnInterest nodeC5w 5 hdrC5 true true).2.1 = []) :=
  ⟨by decide, by decide, by decide,
   onInterest_suppression nodeC5w 4 hdrC5 true true entryC5 (by decide) (by decide) (by decide),
   (onInterest_suppression nodeC5w 5 hdrC5 true true entryC5 (by decide) (by decide) (by decide)).2⟩

/-! ## C1: Data satisfaction fan-out -/

/-- C1 counterexample: the matching Data arriving on face 1 — which is itself
one of the incoming faces {1, 2, 3} — is sent to faces 2 and 3 only: face 1 is
removed from the incoming set *before* the satisfaction fan-out (line 613 of
the source precedes `OnDataDelayed`), so "exactly one send to each of
F1, F2, F3" fails at this input. -/
theorem onData_fanout_cex :
    pitLookup nodeC1.pit 0 = some entryC1 ∧ entryC1.incoming = [1, 2, 3] ∧
    (findOutgoing entryC1.outgoing 1).isSome = true ∧
    (OnData nodeC1 1 dC1 5).2.1.count (Action.send 1 (Pkt.dataPkt dC1)) = 0 ∧
    (OnData nodeC1 1 dC1 5).2.1
      = [Action.send 2 (Pkt.dataPkt dC1), Action.send 3 (Pkt.dataPkt dC1)] := by
  decide

/-- C1 (amended): a Data packet matching a PIT entry with incoming faces
{F1, F2, F3}, arriving on a face that has an outgoing record in the entry and
is not one of F1, F2, F3, is sent exactly once to each of F1, F2, F3, and the
entry ends marked erased with empty incoming and outgoing sets. (As stated the
claim fails when the arriving face lacks an outgoing record — unsolicited
drop, zero sends — or is itself one of F1, F2, F3, see the counterexample.) -/
theorem onData_fanout (node : Node) (face : Nat) (d : DataPkt) (now : Nat)
    (entry : PitEntry) (f1 f2 f3 : Nat) (og : PitOutgoing)
    (hl : pitLookup node.pit d.name = some entry)
    (hinc : entry.incoming = [f1, f2, f3])
    (hout : findOutgoing entry.outgoing face = some og)
    (hn1 : f1 ≠ face) (hn2 : f2 ≠ face) (hn3 : f3 ≠ face)
    (h12 : f1 ≠ f2) (h13 : f1 ≠ f3) (h23 : f2 ≠ f3) :
    (OnData node face d now).2.1
      = [Action.send f1 (Pkt.dataPkt d), Action.send f2 (Pkt.dataPkt d),
         Action.send f3 (Pkt.dataPkt d)]
    ∧ (OnData node face d now).2.1.count (Action.send f1 (Pkt.dataPkt d)) = 1
    ∧ (OnData node face d now).2.1.count (Action.send f2 (Pkt.dataPkt d)) = 1
    ∧ (OnData node face d now).2.1.count (Action.send f3 (Pkt.dataPkt d)) = 1
    ∧ ∃ e', pitLookup (OnData node face d now).1.pit d.name = some e'
        ∧ e'.erased = true ∧ e'.incoming = [] ∧ e'.outgoing = [] := by
  have hrm : (removeIncoming entry face).incoming = [f1, f2, f3] := by
    simp [removeIncoming, hinc, hn1, hn2, hn3]
  have hup := pitLookup_updatePit_of_found node.pit d.name
    (fun e => removeIncoming e face) entry hl rfl
  have hup₂ := pitLookup_updatePit_of_found
    (updatePit node.pit d.name (fun e => removeIncoming e face)) d.name
    (fun e => markErased { e with incoming := [], outgoing := [] })
    (removeIncoming entry face) hup rfl
  have hne : (removeIncoming entry face).incoming.isEmpty = false := by
    rw [hrm]; rfl
  have hacts : (OnData node face d now).2.1
      = [Action.send f1 (Pkt.dataPkt d), Action.send f2 (Pkt.dataPkt d),
         Action.send f3 (Pkt.dataPkt d)] := by
    simp [OnData, hl, hout, hne, OnDataDelayed, hup, hrm]
  refine ⟨hacts, ?_, ?_, ?_, ?_⟩
  · rw [hacts]; simp [List.count_cons, h12, h13, h23, h12.symm, h13.symm, h23.symm]
  · rw [hacts]; simp [List.count_cons, h12, h13, h23, h12.symm, h13.symm, h23.symm]
  · rw [hacts]; simp [List.count_cons, h12, h13, h23, h12.symm, h13.symm, h23.symm]
  · refine ⟨markErased { removeIncoming entry face with incoming := [], outgoing := [] }, ?_, rfl, rfl, rfl⟩
    simp only [markErased] at hup₂
    simp [OnData, hl, hout, hne, OnDataDelayed, hup, hrm, markErased, hup₂]

/-- Witness for C1 (amended) at `nodeC1w`: Data for name 0 arrives on face 4. -/
theorem onData_fanout_witness :
    pitLookup nodeC1w.pit dC1.name = some entryC1w ∧
    entryC1w.incoming = [1, 2, 3] ∧
    findOutgoing entryC1w.outgoing 4 = some { m_face := 4, m_sendTime := 2, m_waitingInVain := false } ∧
    ((OnData nodeC1w 4 dC1 5).2.1
      = [Action.send 1 (Pkt.dataPkt dC1), Action.send 2 (Pkt.dataPkt dC1),
         Action.send 3 (Pkt.dataPkt dC1)]
     ∧ (OnData nodeC1w 4 dC1 5).2.1.count (Action.send 1 (Pkt.dataPkt dC1)) = 1
     ∧ (OnData nodeC1w 4 dC1 5).2.1.count (Action.send 2 (Pkt.dataPkt dC1)) = 1
     ∧ (OnData nodeC1w 4 dC1 5).2.1.count (Action.send 3 (Pkt.dataPkt dC1)) = 1
     ∧ ∃ e', pitLookup (OnData nodeC1w 4 dC1 5).1.pit dC1.name = some e'
        ∧ e'.erased = true ∧ e'.incoming = [] ∧ e'.outgoing = []) :=
  ⟨by decide, by decide, by decide,
   onData_fanout nodeC1w 4 dC1 5 entryC1w 1 2 3
     { m_face := 4, m_sendTime := 2, m_waitingInVain := false }
     (by decide) (by decide) (by decide) (by decide) (by decide) (by decide)
     (by decide) (by decide) (by decide)⟩

/-! ## C2: malformed / unrecognized packets -/

/-- C2 counterexample: a packet with an unrecognized declared header type makes
`Receive` end in the fatal `NS_ASSERT_MSG (false, "Unknown Ndn header...")`
branch of the catch handler — a crash in assert-enabled builds — refuting the
claim that such a packet is merely logged and dropped and "never crashes the
node". -/
theorem receive_unknown_header_crashes_cex :
    rxCrashes (Receive true
      { declaredType := HeaderType.unknownHeader, interestHdr := none,
        dataHdr := none, interestPayloadSize := 0 }) = true := by
  decide

/-- C2 amended: for every inbound packet whose declared type is unrecognized or
whose type-specific header fails to deserialize, the exception is caught inside
`Receive` (the result is the catch handler's, never a propagated exception, and
the packet is not dispatched — i.e. dropped), but via the branch that trips
`NS_ASSERT_MSG (false, ...)`, which is fatal in assert-enabled builds. -/
theorem receive_malformed_caught (p : RawPacket)
    (h : p.declaredType = HeaderType.unknownHeader
         ∨ (p.declaredType = HeaderType.interest ∧ p.interestHdr = none)
         ∨ (p.declaredType = HeaderType.contentObject ∧ p.dataHdr = none)) :
    Receive true p = RxResult.assertionFailed unknownHeaderMsg := by
  rcases h with h | ⟨h1, h2⟩ | ⟨h1, h2⟩
  · simp [Receive, h]
  · simp [Receive, h1, h2]
  · simp [Receive, h1, h2]

/-- Witness for C2 (amended) at a concrete content-object packet whose
deserialization fails. -/
theorem receive_malformed_caught_witness :
    (pktBadData.declaredType = HeaderType.unknownHeader
     ∨ (pktBadData.declaredType = HeaderType.interest ∧ pktBadData.interestHdr = none)
     ∨ (pktBadData.declaredType = HeaderType.contentObject ∧ pktBadData.dataHdr = none)) ∧
    Receive true pktBadData = RxResult.assertionFailed unknownHeaderMsg :=
  ⟨Or.inr (Or.inr ⟨rfl, rfl⟩),
   receive_malformed_caught pktBadData (Or.inr (Or.inr ⟨rfl, rfl⟩))⟩

end NdnL3
